import Mathlib

/-!
Shallow embedding of the resumable fetch-and-classify crawler.

The JavaScript source consists of a main driver (`takeScreenshots` with its
helpers `recordFailure` and `handleShutdown`), a utilities module
(`loadExistingData`, `checkContentType`, `hashUrl`, `checkFilesExist`,
`updateIndexFiles`, `downloadFile`, text extraction), and
`documentProcessor.js` (`processDocument`).

Modelling choices:
* A JS object used as a map (the persisted index `urlMap`) is an association
  list `List (String × ArtifactSet)`; `urlMap[url] = v` is in-place update
  (or append of a fresh key), `!urlMap[url]` is `(lookupUrl m url).isNone`.
* Network, browser, clock and disk behaviour are inputs: a `StepEnv` record
  supplies the probed content type, the re-probe seen by the document worker,
  the download/extraction outcomes, which files exist on disk, the navigation
  outcome of the rendered page, whether the flush write succeeds, and the
  timestamp `new Date().toISOString()` would produce.
* Side effects are an explicit event trace (`Event`): file writes, page
  open/close, downloads, flush writes of the two persisted files, log lines,
  context close and process exit, in program order.
* `hashUrl` (an md5 digest from the crypto library) is an external
  collaborator and is passed as an opaque parameter `String → String`.
-/

namespace Crawler

/-- `startsWithChars s p` is true when `p` is an initial segment of `s`
(character lists). -/
def startsWithChars : List Char → List Char → Bool
  | _, [] => true
  | [], _ :: _ => false
  | c :: cs, p :: ps => c == p && startsWithChars cs ps

/-- `hasSub pat s` is true when `pat` occurs contiguously inside `s`. -/
def hasSub (pat : List Char) : List Char → Bool
  | [] => startsWithChars [] pat
  | c :: cs => startsWithChars (c :: cs) pat || hasSub pat cs

/-- JS `s.includes(pat)`: substring containment on strings. -/
def includes (s pat : String) : Bool :=
  hasSub pat.data s.data

/-- A FailureLedger entry, as pushed by `recordFailure`:
`{ url, error: error.message, timestamp: new Date().toISOString() }`. -/
structure FailureRecord where
  url : String
  error : String
  timestamp : String
  deriving DecidableEq, Repr

/-- The value stored in the index for a URL: either the three page artifact
filenames or the two document artifact filenames. -/
inductive ArtifactSet where
  | page (screenshot html text : String)
  | doc (document text : String)
  deriving DecidableEq, Repr

/-- The persisted index `urlMap`: a JS object mapping URL to artifact set,
modelled as an association list that keeps insertion order. -/
abbrev UrlMap := List (String × ArtifactSet)

/-- Key lookup in the index (JS `urlMap[url]`; the stored values are always
objects, hence truthy, so `!urlMap[url]` tests key absence). -/
def lookupUrl : UrlMap → String → Option ArtifactSet
  | [], _ => none
  | (k, v) :: rest, u => if k = u then some v else lookupUrl rest u

/-- Key assignment in the index (JS `urlMap[url] = v`): replace in place if
the key exists, otherwise append the new key. -/
def setKey : UrlMap → String → ArtifactSet → UrlMap
  | [], u, v => [(u, v)]
  | (k, w) :: rest, u, v =>
    if k = u then (k, v) :: rest else (k, w) :: setKey rest u v

/-- Observable side effects of a run, in program order. `flushWrite` is a
persistence write that the program awaited, so it has completed at its trace
position; `flushAsync` is a persistence write that the program only
initiated at its trace position without awaiting it (the fire-and-forget
`updateIndexFiles(...).catch(console.error)` inside `recordFailure`), so its
completion lands at some later point chosen by the environment. -/
inductive Event where
  | probe (url : String)
  | download (url filePath : String)
  | writeFile (filePath : String)
  | pageOpen
  | navigate (url : String)
  | screenshot (filePath : String)
  | pageClose
  | flushWrite (index : UrlMap) (ledger : List FailureRecord)
  | flushAsync (index : UrlMap) (ledger : List FailureRecord)
  | logError (msg : String)
  | contextClose
  | exitProcess (code : Nat)
  deriving DecidableEq, Repr

/-- Output directories, as in the driver. -/
def screenshotsDir : String := "./out/screenshots"

def htmlDir : String := "./out/html"

def textDir : String := "./out/text"

def docDir : String := "./out/doc"

/-- `path.join(dir, name)` for the simple relative paths used here. -/
def pathJoin (dir fname : String) : String :=
  dir ++ "/" ++ fname

/-- `updateIndexFiles(urlMap, failedUrls)` at an awaited call site
(`await updateIndexFiles(...)`): writes both persisted files inside a
try/catch; a failing write is logged (`console.error`) and never re-thrown,
so the function always returns normally. `diskOk` says whether the two
`fs.writeFile` calls (issued concurrently via `Promise.all`) succeed; the
embedding models the pair as landing together or failing together, so
disk-content conclusions are only drawn here under `diskOk = true` — the
source gives no atomicity between the two files. -/
def updateIndexFiles (diskOk : Bool) (urlMap : UrlMap)
    (failedUrls : List FailureRecord) : List Event :=
  if diskOk then [Event.flushWrite urlMap failedUrls]
  else [Event.logError "Error updating index files"]

/-- `updateIndexFiles(urlMap, failedUrls).catch(console.error)` at the one
call site that does NOT await it (inside `recordFailure`): the write of the
two files is only initiated at this point (`flushAsync`) and completes at a
later point chosen by the environment; a failing write is logged. -/
def updateIndexFilesNoAwait (diskOk : Bool) (urlMap : UrlMap)
    (failedUrls : List FailureRecord) : List Event :=
  if diskOk then [Event.flushAsync urlMap failedUrls]
  else [Event.logError "Error updating index files"]

/-- The driver's in-memory state: the index `urlMap` and the module-level
`failedUrls` array. -/
structure LoopState where
  urlMap : UrlMap
  failedUrls : List FailureRecord
  deriving DecidableEq, Repr

/-- `recordFailure(url, error, urlMap)`: push a record onto `failedUrls`,
then fire `updateIndexFiles(urlMap, failedUrls).catch(console.error)`
WITHOUT awaiting it — the flush is initiated here but the function returns
immediately, so the loop can move on before the write completes (the
flush's own failure is swallowed by `.catch`). -/
def recordFailure (diskOk : Bool) (url errMsg ts : String) (st : LoopState) :
    LoopState × List Event :=
  let failed := st.failedUrls ++ [{ url := url, error := errMsg, timestamp := ts }]
  ({ st with failedUrls := failed },
    updateIndexFilesNoAwait diskOk st.urlMap failed)

/-- Environment seen by one `processDocument` call: the re-probed content type
and the outcomes of the download and of the two text extractors. -/
structure DocEnv where
  contentType2 : String
  download : Except String Unit
  extractPdf : Except String String
  extractWord : Except String String

/-- `processDocument(url, fileHash, docDir, textDir)`: re-probe the content
type, pick the extension (`pdf` → `.pdf`, else `word` → `.docx`, else
`.bin`), download the body to the fingerprinted document path, extract text
with the capability matching the re-probe — throwing an unsupported-type
error when the re-probe matches neither — and write the text file.
Returns the `DocumentArtifacts` record (basename of the document, text
filename), or the thrown error's message. -/
def processDocument (url fileHash : String) (docDirArg textDirArg : String)
    (env : DocEnv) : Except String ArtifactSet × List Event :=
  let contentType := env.contentType2
  let extension :=
    if includes contentType "pdf" then ".pdf"
    else if includes contentType "word" then ".docx"
    else ".bin"
  let docPath := pathJoin docDirArg (fileHash ++ extension)
  let textPath := pathJoin textDirArg (fileHash ++ ".txt")
  match env.download with
  | Except.error msg => (Except.error msg, [Event.probe url])
  | Except.ok _ =>
    let evs := [Event.probe url, Event.download url docPath]
    if includes contentType "pdf" then
      match env.extractPdf with
      | Except.error msg => (Except.error msg, evs)
      | Except.ok _ =>
        (Except.ok (ArtifactSet.doc (fileHash ++ extension) (fileHash ++ ".txt")),
          evs ++ [Event.writeFile textPath])
    else if includes contentType "word" then
      match env.extractWord with
      | Except.error msg => (Except.error msg, evs)
      | Except.ok _ =>
        (Except.ok (ArtifactSet.doc (fileHash ++ extension) (fileHash ++ ".txt")),
          evs ++ [Event.writeFile textPath])
    else
      (Except.error ("Unsupported document type: " ++ contentType), evs)

/-- Outcome of the raced page capture (`page.goto` + screenshot + HTML + text
against a 5000 ms timer): completed in time, deadline exceeded (the race's
timer rejects with message `Timeout`), or some navigation/rendering error. -/
inductive NavResult where
  | ok
  | timeout
  | err (msg : String)

/-- Environment seen while processing one URL. -/
structure StepEnv where
  contentType : String
  doc : DocEnv
  filesOnDisk : String → Bool
  nav : NavResult
  diskOk : Bool
  timestamp : String

/-- `checkFilesExist(files)`: all of the given paths exist on disk. -/
def checkFilesExist (filesOnDisk : String → Bool) (files : List String) : Bool :=
  (files.map filesOnDisk).all (fun b => b)

/-- The per-URL `catch` block: a caught error whose message is exactly
`Timeout` is recorded as `Processing timeout`; any other caught error is
recorded with its own message. -/
def catchUrlError (diskOk : Bool) (url msg ts : String) (st : LoopState) :
    LoopState × List Event :=
  if msg = "Timeout" then recordFailure diskOk url "Processing timeout" ts st
  else recordFailure diskOk url msg ts st

/-- One iteration of the driver's `for` loop (the body under the per-URL
`try`/`catch`): probe the content type; content types containing `pdf` or
`word` go to the document worker, whose success updates the index and
flushes and whose thrown error is caught; content types not containing
`html` are recorded as `Unsupported content type`; otherwise the page branch
runs: if all three fingerprinted artifact files exist, short-circuit to
success (update index, flush) without touching the browser; else open a page
and race the capture against the 5 s timer — on success write the three
artifacts, update the index, flush, and close the page; on timeout or error
the exception skips `page.close()` and lands in the catch block. -/
def processUrl (hashUrl : String → String) (env : StepEnv) (url : String)
    (st : LoopState) : LoopState × List Event :=
  let fileHash := hashUrl url
  let contentType := env.contentType
  if includes contentType "pdf" || includes contentType "word" then
    match processDocument url fileHash docDir textDir env.doc with
    | (Except.ok artifacts, evs) =>
      let st1 : LoopState := { st with urlMap := setKey st.urlMap url artifacts }
      (st1, Event.probe url :: (evs ++ updateIndexFiles env.diskOk st1.urlMap st1.failedUrls))
    | (Except.error msg, evs) =>
      let r := catchUrlError env.diskOk url msg env.timestamp st
      (r.1, Event.probe url :: (evs ++ r.2))
  else if !(includes contentType "html") then
    let r := recordFailure env.diskOk url ("Unsupported content type: " ++ contentType)
      env.timestamp st
    (r.1, Event.probe url :: r.2)
  else
    let screenshotPath := pathJoin screenshotsDir (fileHash ++ ".png")
    let htmlPath := pathJoin htmlDir (fileHash ++ ".html")
    let textPath := pathJoin textDir (fileHash ++ ".txt")
    let pageArtifacts : ArtifactSet :=
      ArtifactSet.page (fileHash ++ ".png") (fileHash ++ ".html") (fileHash ++ ".txt")
    if checkFilesExist env.filesOnDisk [screenshotPath, htmlPath, textPath] then
      let st1 : LoopState := { st with urlMap := setKey st.urlMap url pageArtifacts }
      (st1, Event.probe url :: updateIndexFiles env.diskOk st1.urlMap st1.failedUrls)
    else
      match env.nav with
      | NavResult.ok =>
        let st1 : LoopState := { st with urlMap := setKey st.urlMap url pageArtifacts }
        (st1, Event.probe url :: Event.pageOpen :: Event.navigate url ::
          Event.screenshot screenshotPath :: Event.writeFile htmlPath ::
          Event.writeFile textPath ::
          (updateIndexFiles env.diskOk st1.urlMap st1.failedUrls ++ [Event.pageClose]))
      | NavResult.timeout =>
        let r := catchUrlError env.diskOk url "Timeout" env.timestamp st
        (r.1, Event.probe url :: Event.pageOpen :: Event.navigate url :: r.2)
      | NavResult.err msg =>
        let r := catchUrlError env.diskOk url msg env.timestamp st
        (r.1, Event.probe url :: Event.pageOpen :: Event.navigate url :: r.2)

/-- The Resume Filter: `urls.filter(url => !urlMap[url])`. -/
def workList (urls : List String) (urlMap : UrlMap) : List String :=
  urls.filter (fun url => (lookupUrl urlMap url).isNone)

/-- The driver's `for` loop over the work list. Each item carries its URL and
whether an interruption signal was delivered before that iteration's
`if (isShuttingDown) break` check; the flag is sticky. -/
def loopRun (step : String → LoopState → LoopState × List Event) :
    List (String × Bool) → Bool → LoopState → LoopState × List Event
  | [], _, st => (st, [])
  | (url, sigHere) :: rest, isShuttingDown, st =>
    let flag := isShuttingDown || sigHere
    if flag then (st, [])
    else
      let r1 := step url st
      let r2 := loopRun step rest flag r1.1
      (r2.1, r1.2 ++ r2.2)

/-- `handleShutdown`: guarded by the `isShuttingDown` flag — the first call
sets the flag, flushes both persisted files, closes the browser context and
exits with status 0; later calls return immediately. Returns the new flag
value and the emitted events. -/
def handleShutdown (diskOk : Bool) (isShuttingDown : Bool) (st : LoopState) :
    Bool × List Event :=
  if isShuttingDown then (isShuttingDown, [])
  else
    (true, updateIndexFiles diskOk st.urlMap st.failedUrls ++
      [Event.contextClose, Event.exitProcess 0])

/-- On-disk content of a persisted file at startup: missing, present but
unreadable/unparsable (read or `JSON.parse` throws), or readable with the
given parsed value. -/
inductive FileState (α : Type) where
  | absent
  | unreadable (errMsg : String)
  | good (val : α)

/-- `loadExistingData()`: each of `out/index.json` and `out/failed_urls.json`
is loaded inside its own try/catch; a missing file yields the empty default,
and a read/parse error is logged (`console.error`) and also yields the empty
default, without aborting startup. -/
def loadExistingData (indexFile : FileState UrlMap)
    (failedFile : FileState (List FailureRecord)) :
    (UrlMap × List FailureRecord) × List Event :=
  let rIdx :=
    match indexFile with
    | FileState.absent => (([] : UrlMap), ([] : List Event))
    | FileState.unreadable msg =>
      ([], [Event.logError ("Error loading index.json: " ++ msg)])
    | FileState.good m => (m, [])
  let rFld :=
    match failedFile with
    | FileState.absent => (([] : List FailureRecord), ([] : List Event))
    | FileState.unreadable msg =>
      ([], [Event.logError ("Error loading failed_urls.json: " ++ msg)])
    | FileState.good f => (f, [])
  ((rIdx.1, rFld.1), rIdx.2 ++ rFld.2)

/-- The run after state loading: compute the work list from the loaded index
and iterate the loop over it (no interruption signals). -/
def runAfterLoad (step : String → LoopState → LoopState × List Event)
    (urls : List String) (urlMap : UrlMap) (failures : List FailureRecord) :
    LoopState × List Event :=
  loopRun step ((workList urls urlMap).map (fun u => (u, false))) false
    { urlMap := urlMap, failedUrls := failures }

/-- The on-disk persisted pair after a trace of events, starting from `d`:
each `flushWrite` overwrites both files wholesale. -/
def diskAfter : UrlMap × List FailureRecord → List Event →
    UrlMap × List FailureRecord
  | d, [] => d
  | d, e :: rest =>
    diskAfter (match e with | Event.flushWrite m f => (m, f) | _ => d) rest

/-- The persistence writes a trace initiates, in initiation (program) order,
each tagged with whether the program awaited its completion before
continuing: `flushWrite` (awaited) is tagged `true`, `flushAsync` (the
fire-and-forget call in `recordFailure`) is tagged `false`. -/
def writesOf : List Event → List ((UrlMap × List FailureRecord) × Bool)
  | [] => []
  | Event.flushWrite m f :: rest => ((m, f), true) :: writesOf rest
  | Event.flushAsync m f :: rest => ((m, f), false) :: writesOf rest
  | _ :: rest => writesOf rest

/-- `order` (a list of initiation positions) is a possible completion order
for the initiated writes `ws`: it is a permutation of all positions, and an
awaited write completes before every write initiated after it (the program
only continued — and so only initiated later writes — once an awaited write
had completed). An un-awaited write is unconstrained: it may land
arbitrarily late, after writes initiated later. -/
def IsCompletionOrder (ws : List ((UrlMap × List FailureRecord) × Bool))
    (order : List Nat) : Prop :=
  order.Perm (List.range ws.length) ∧
  ∀ i j, i < j → j < ws.length →
    (ws.getD i (([], []), false)).2 = true →
    order.indexOf i < order.indexOf j

/-- The on-disk persisted pair after all initiated writes have completed in
the given completion order, starting from `d0`: each completing write
overwrites both files wholesale with the state it captured at initiation. -/
def diskAfterCompletion (d0 : UrlMap × List FailureRecord)
    (ws : List ((UrlMap × List FailureRecord) × Bool)) (order : List Nat) :
    UrlMap × List FailureRecord :=
  order.foldl (fun d i => (ws.getD i (d, false)).1) d0

/-- The failure record produced for the unsupported URL of the concrete
two-URL run used to analyse flush completion. -/
def recStale : FailureRecord :=
  { url := "https://fail.example",
    error := "Unsupported content type: application/octet-stream",
    timestamp := "tsf" }

/-- A concrete two-URL run: the first URL probes as
`application/octet-stream` (recorded as an unsupported-content failure, so
its flush is the un-awaited one fired by `recordFailure`), the second probes
as `text/html` with all three artifact files already on disk (skip-on-exists
success, whose flush is awaited). -/
def runStale : LoopState × List Event :=
  loopRun
    (fun url st =>
      processUrl (fun _ => "h")
        { contentType :=
            if url = "https://ok.example" then "text/html"
            else "application/octet-stream",
          doc := { contentType2 := "", download := Except.ok (),
                   extractPdf := Except.ok "", extractWord := Except.ok "" },
          filesOnDisk := fun _ => true, nav := NavResult.ok, diskOk := true,
          timestamp := "tsf" }
        url st)
    [("https://fail.example", false), ("https://ok.example", false)]
    false { urlMap := [], failedUrls := [] }

/-! ### Helper lemmas -/

theorem diskAfter_append :
    ∀ (l1 : List Event) (d : UrlMap × List FailureRecord) (l2 : List Event),
      diskAfter d (l1 ++ l2) = diskAfter (diskAfter d l1) l2
  | [], _, _ => rfl
  | e :: rest, d, l2 => by
    simp only [List.cons_append, diskAfter]
    exact diskAfter_append rest _ l2

@[simp] theorem recordFailure_fst (d : Bool) (url msg ts : String) (st : LoopState) :
    (recordFailure d url msg ts st).1 =
      { st with failedUrls :=
          st.failedUrls ++ [{ url := url, error := msg, timestamp := ts }] } := rfl

@[simp] theorem catchUrlError_fst (d : Bool) (url msg ts : String) (st : LoopState) :
    (catchUrlError d url msg ts st).1 =
      { st with failedUrls := st.failedUrls ++
          [{ url := url,
             error := if msg = "Timeout" then "Processing timeout" else msg,
             timestamp := ts }] } := by
  unfold catchUrlError
  split <;> simp_all [recordFailure]

theorem catchUrlError_eq (d : Bool) (url msg ts : String) (st : LoopState) :
    catchUrlError d url msg ts st =
      recordFailure d url (if msg = "Timeout" then "Processing timeout" else msg)
        ts st := by
  unfold catchUrlError
  split <;> simp_all

theorem unsupported_msg_ne_timeout (s : String) :
    ("Unsupported document type: " ++ s) ≠ "Timeout" := by
  intro h
  have hlen := congrArg String.length h
  rw [String.length_append] at hlen
  have h1 : ("Unsupported document type: " : String).length = 27 := rfl
  have h2 : ("Timeout" : String).length = 7 := rfl
  omega

theorem capture_events_not_in_updateIndexFiles (d : Bool) (m : UrlMap)
    (f : List FailureRecord) :
    Event.pageOpen ∉ updateIndexFiles d m f ∧
    Event.pageClose ∉ updateIndexFiles d m f ∧
    (∀ u, Event.navigate u ∉ updateIndexFiles d m f) ∧
    (∀ u p, Event.download u p ∉ updateIndexFiles d m f) := by
  cases d <;> simp [updateIndexFiles]

theorem lookupUrl_setKey (m : UrlMap) (u : String) (a : ArtifactSet) :
    lookupUrl (setKey m u a) u = some a := by
  induction m with
  | nil => simp [setKey, lookupUrl]
  | cons hd tl ih =>
    obtain ⟨k, v⟩ := hd
    by_cases h : k = u <;> simp [setKey, lookupUrl, h, ih]

/-! ### Claims -/

/-- Claim C1: the Resume Filter's work list is exactly the input URLs that
are not keys of the PersistedIndex; in particular a URL present only in the
FailureLedger (not in the index) is re-included in every subsequent run's
work list. -/
theorem claim_C1_resume_filter (urls : List String) (urlMap : UrlMap)
    (url : String) (ledger : List FailureRecord) :
    (url ∈ workList urls urlMap ↔ url ∈ urls ∧ lookupUrl urlMap url = none) ∧
    (url ∈ urls → lookupUrl urlMap url = none →
      (∃ r ∈ ledger, r.url = url) → url ∈ workList urls urlMap) := by
  constructor
  · simp [workList, List.mem_filter, Option.isNone_iff_eq_none]
  · intro h1 h2 _
    simp [workList, List.mem_filter, Option.isNone_iff_eq_none, h1, h2]

theorem claim_C1_resume_filter_witness :
    "https://a.example" ∈ workList ["https://a.example", "https://b.example"]
      [("https://b.example", ArtifactSet.page "b.png" "b.html" "b.txt")] :=
  (claim_C1_resume_filter ["https://a.example", "https://b.example"]
      [("https://b.example", ArtifactSet.page "b.png" "b.html" "b.txt")]
      "https://a.example"
      [{ url := "https://a.example", error := "Processing timeout",
         timestamp := "2024-01-01T00:00:00.000Z" }]).2
    (by decide) (by decide) (by decide)

/-- Claim C5: the shutdown coordinator transitions at most once — the first
signal sets the flag and emits exactly one flush of both persisted files,
a context close, and a process exit with status 0; a later signal on an
already-shutting-down state is a no-op; and the loop, observing the flag
before starting each URL, starts no new URL once the flag is set. -/
theorem claim_C5_shutdown_once (st : LoopState) :
    (handleShutdown true false st).1 = true ∧
    (handleShutdown true false st).2 =
      [Event.flushWrite st.urlMap st.failedUrls, Event.contextClose,
        Event.exitProcess 0] ∧
    (∀ diskOk st2, handleShutdown diskOk true st2 = (true, [])) ∧
    (∀ step items st2,
      loopRun step items true st2 = (st2, ([] : List Event))) ∧
    (∀ step url rest st2,
      loopRun step ((url, true) :: rest) false st2 = (st2, ([] : List Event))) := by
  refine ⟨rfl, rfl, fun d st2 => rfl, ?_, fun step url rest st2 => rfl⟩
  intro step items st2
  cases items with
  | nil => rfl
  | cons hd tl => cases hd; rfl

theorem claim_C5_shutdown_once_witness :
    (handleShutdown true false { urlMap := [], failedUrls := [] }).2 =
      [Event.flushWrite [] [], Event.contextClose, Event.exitProcess 0] :=
  (claim_C5_shutdown_once { urlMap := [], failedUrls := [] }).2.1

/-- Claim C8: idempotency of a whole run — if the loaded index already
contains every input URL as a key, the work list is empty, the loop performs
no step, and the final state still holds exactly the loaded index. -/
theorem claim_C8_idempotency (step : String → LoopState → LoopState × List Event)
    (urls : List String) (m : UrlMap) (fl : List FailureRecord)
    (h : ∀ u ∈ urls, (lookupUrl m u).isSome = true) :
    workList urls m = [] ∧
    runAfterLoad step urls m fl = ({ urlMap := m, failedUrls := fl }, []) := by
  have hw : workList urls m = [] := by
    refine List.filter_eq_nil_iff.mpr ?_
    intro u hu
    have hs := h u hu
    cases hlk : lookupUrl m u with
    | none => rw [hlk] at hs; simp at hs
    | some v => simp [hlk]
  refine ⟨hw, ?_⟩
  simp [runAfterLoad, hw, loopRun]

theorem claim_C8_idempotency_witness :
    workList ["https://a.example"]
        [("https://a.example", ArtifactSet.doc "a.pdf" "a.txt")] = [] ∧
    runAfterLoad (fun _ st => (st, []))
        ["https://a.example"]
        [("https://a.example", ArtifactSet.doc "a.pdf" "a.txt")] [] =
      ({ urlMap := [("https://a.example", ArtifactSet.doc "a.pdf" "a.txt")],
         failedUrls := [] }, []) :=
  claim_C8_idempotency (fun _ st => (st, []))
    ["https://a.example"]
    [("https://a.example", ArtifactSet.doc "a.pdf" "a.txt")] []
    (by decide)

/-- Claim C9: a persisted file that exists but cannot be read or parsed is
caught and logged at startup, and the run proceeds with the empty default for
that structure (the other file still loads normally); with an empty index the
Resume Filter then reprocesses every input URL. -/
theorem claim_C9_corrupt_load (e1 e2 : String) (idx : FileState UrlMap)
    (fld : FileState (List FailureRecord)) (m : UrlMap)
    (f : List FailureRecord) (urls : List String) :
    (loadExistingData (FileState.unreadable e1) fld).1.1 = [] ∧
    Event.logError ("Error loading index.json: " ++ e1) ∈
      (loadExistingData (FileState.unreadable e1) fld).2 ∧
    (loadExistingData idx (FileState.unreadable e2)).1.2 = [] ∧
    Event.logError ("Error loading failed_urls.json: " ++ e2) ∈
      (loadExistingData idx (FileState.unreadable e2)).2 ∧
    (loadExistingData (FileState.unreadable e1) (FileState.good f)).1.2 = f ∧
    (loadExistingData (FileState.good m) (FileState.unreadable e2)).1.1 = m ∧
    workList urls [] = urls := by
  refine ⟨rfl, ?_, rfl, ?_, rfl, rfl, ?_⟩
  · cases fld <;> simp [loadExistingData]
  · cases idx <;> simp [loadExistingData]
  · simp [workList, lookupUrl]

theorem claim_C9_corrupt_load_witness :
    (loadExistingData (FileState.unreadable "Unexpected end of JSON input")
        (FileState.good [])).1.1 = [] ∧
    workList ["https://a.example"] [] = ["https://a.example"] :=
  ⟨(claim_C9_corrupt_load "Unexpected end of JSON input" "e2"
      (FileState.good []) (FileState.good []) [] [] ["https://a.example"]).1,
   (claim_C9_corrupt_load "Unexpected end of JSON input" "e2"
      (FileState.good []) (FileState.good []) [] [] ["https://a.example"]).2.2.2.2.2.2⟩

set_option maxHeartbeats 1600000 in
/-- Claim C2 counterexample: the claim asserts that after every outcome,
success or failure, both files are written to durable storage before the
loop moves to the next URL, so disk is never more than one in-flight URL
behind memory. In the concrete two-URL run `runStale`, the first URL fails
and `recordFailure` only initiates its flush without awaiting it (tagged
un-awaited in `writesOf`), the second URL succeeds with an awaited flush;
the completion order that lets the un-awaited write land last is valid, and
under it the disk ends at the first URL's stale state — missing the second
URL's already-completed, already-flushed success, with nothing in flight —
refuting the claimed durability ordering. -/
theorem claim_C2_counterexample :
    writesOf runStale.2 =
      [((([], [recStale]) : UrlMap × List FailureRecord), false),
       ((([("https://ok.example", ArtifactSet.page "h.png" "h.html" "h.txt")],
          [recStale]) : UrlMap × List FailureRecord), true)] ∧
    IsCompletionOrder (writesOf runStale.2) [1, 0] ∧
    diskAfterCompletion ([], []) (writesOf runStale.2) [1, 0] =
      ([], [recStale]) ∧
    (([], [recStale]) : UrlMap × List FailureRecord) ≠
      (runStale.1.urlMap, runStale.1.failedUrls) := by
  refine ⟨by decide, ⟨?_, ?_⟩, by decide, by decide⟩
  · have h2 : (writesOf runStale.2).length = 2 := by decide
    rw [h2, show List.range 2 = [0, 1] from rfl]
    exact List.Perm.swap 0 1 []
  · intro i j hij hj htrue
    have h2 : (writesOf runStale.2).length = 2 := by decide
    rw [h2] at hj
    have hi : i = 0 := by omega
    subst hi
    have hfalse : (writesOf runStale.2).getD 0 (([], []), false) =
        (([], [recStale]), false) := by decide
    rw [hfalse] at htrue
    simp at htrue

set_option maxHeartbeats 1600000 in
/-- Claim C2 (amended): after every URL's outcome a flush carrying exactly
the step's final in-memory index and ledger is initiated before the loop
moves on, and flush errors are caught and logged without aborting the run
(the step's resulting state does not depend on the write outcome). On
success outcomes the flush is awaited: when the writes succeed, replaying
the step's trace leaves the disk holding exactly the final in-memory state.
On failure outcomes `recordFailure` fires the flush WITHOUT awaiting it: no
awaited write lands during the step, the write is only initiated, and its
completion before the next URL is not guaranteed (a late-landing un-awaited
write can leave disk more than one URL behind memory, per the
counterexample). -/
theorem claim_C2_flush_initiation (hashUrl : String → String) (env : StepEnv)
    (url : String) (st : LoopState) (d0 : UrlMap × List FailureRecord)
    (hdisk : env.diskOk = true) :
    (Event.flushWrite (processUrl hashUrl env url st).1.urlMap
        (processUrl hashUrl env url st).1.failedUrls ∈
        (processUrl hashUrl env url st).2 ∨
     Event.flushAsync (processUrl hashUrl env url st).1.urlMap
        (processUrl hashUrl env url st).1.failedUrls ∈
        (processUrl hashUrl env url st).2) ∧
    ((processUrl hashUrl env url st).1.failedUrls = st.failedUrls →
      diskAfter d0 (processUrl hashUrl env url st).2 =
        ((processUrl hashUrl env url st).1.urlMap,
         (processUrl hashUrl env url st).1.failedUrls)) ∧
    ((processUrl hashUrl env url st).1.failedUrls ≠ st.failedUrls →
      diskAfter d0 (processUrl hashUrl env url st).2 = d0 ∧
      Event.flushAsync (processUrl hashUrl env url st).1.urlMap
        (processUrl hashUrl env url st).1.failedUrls ∈
        (processUrl hashUrl env url st).2) ∧
    (∀ m f, updateIndexFiles false m f =
      [Event.logError "Error updating index files"]) ∧
    (processUrl hashUrl { env with diskOk := false } url st).1 =
      (processUrl hashUrl env url st).1 := by
  obtain ⟨ct, ⟨ct2, dl, exP, exW⟩, fod, nav, dOk, ts⟩ := env
  have hdOk : dOk = true := hdisk
  subst hdOk
  refine ⟨?_, ?_, ?_, fun m f => rfl, ?_⟩
  · cases nav <;> cases dl <;> cases exP <;> cases exW <;>
      simp only [processUrl, processDocument, catchUrlError_eq, recordFailure,
        updateIndexFiles, updateIndexFilesNoAwait] <;>
      split_ifs <;>
      simp
  · cases nav <;> cases dl <;> cases exP <;> cases exW <;>
      simp only [processUrl, processDocument, catchUrlError_eq, recordFailure,
        updateIndexFiles, updateIndexFilesNoAwait] <;>
      split_ifs <;>
      intro h <;>
      first
        | (simp [diskAfter, diskAfter_append]; done)
        | (exact absurd (congrArg List.length h) (by simp))
  · cases nav <;> cases dl <;> cases exP <;> cases exW <;>
      simp only [processUrl, processDocument, catchUrlError_eq, recordFailure,
        updateIndexFiles, updateIndexFilesNoAwait] <;>
      split_ifs <;>
      intro h <;>
      first
        | exact absurd rfl h
        | (constructor <;> simp [diskAfter, diskAfter_append])
  · cases nav <;> cases dl <;> cases exP <;> cases exW <;>
      simp only [processUrl, processDocument, catchUrlError_eq, recordFailure,
        updateIndexFiles, updateIndexFilesNoAwait] <;>
      split_ifs <;>
      simp

theorem claim_C2_flush_initiation_witness :
    diskAfter ([], [])
      (processUrl (fun _ => "h")
        { contentType := "text/html",
          doc := { contentType2 := "text/html", download := Except.ok (),
                   extractPdf := Except.ok "", extractWord := Except.ok "" },
          filesOnDisk := fun _ => true, nav := NavResult.ok, diskOk := true,
          timestamp := "tw" }
        "https://w.example" { urlMap := [], failedUrls := [] }).2 =
      ((processUrl (fun _ => "h")
        { contentType := "text/html",
          doc := { contentType2 := "text/html", download := Except.ok (),
                   extractPdf := Except.ok "", extractWord := Except.ok "" },
          filesOnDisk := fun _ => true, nav := NavResult.ok, diskOk := true,
          timestamp := "tw" }
        "https://w.example" { urlMap := [], failedUrls := [] }).1.urlMap,
       (processUrl (fun _ => "h")
        { contentType := "text/html",
          doc := { contentType2 := "text/html", download := Except.ok (),
                   extractPdf := Except.ok "", extractWord := Except.ok "" },
          filesOnDisk := fun _ => true, nav := NavResult.ok, diskOk := true,
          timestamp := "tw" }
        "https://w.example" { urlMap := [], failedUrls := [] }).1.failedUrls) :=
  (claim_C2_flush_initiation (fun _ => "h")
    { contentType := "text/html",
      doc := { contentType2 := "text/html", download := Except.ok (),
               extractPdf := Except.ok "", extractWord := Except.ok "" },
      filesOnDisk := fun _ => true, nav := NavResult.ok, diskOk := true,
      timestamp := "tw" }
    "https://w.example" { urlMap := [], failedUrls := [] } ([], []) rfl).2.1
    (by decide)

/-- Claim C3 counterexample: at a concrete web-page URL whose capture hits
the 5 s deadline, the timeout failure is recorded and the loop-visible state
moves on, but no pageClose event is ever emitted — the claim's assertion that
the rendering session is released (the page/tab closed) on the timeout path
is false: the thrown timeout skips `await page.close()`. -/
theorem claim_C3_counterexample :
    (processUrl (fun u => u)
        { contentType := "text/html",
          doc := { contentType2 := "", download := Except.ok (),
                   extractPdf := Except.ok "", extractWord := Except.ok "" },
          filesOnDisk := fun _ => false, nav := NavResult.timeout,
          diskOk := true, timestamp := "ts0" }
        "https://slow.example" { urlMap := [], failedUrls := [] }).1.failedUrls =
      [{ url := "https://slow.example", error := "Processing timeout",
         timestamp := "ts0" }] ∧
    Event.pageOpen ∈
      (processUrl (fun u => u)
        { contentType := "text/html",
          doc := { contentType2 := "", download := Except.ok (),
                   extractPdf := Except.ok "", extractWord := Except.ok "" },
          filesOnDisk := fun _ => false, nav := NavResult.timeout,
          diskOk := true, timestamp := "ts0" }
        "https://slow.example" { urlMap := [], failedUrls := [] }).2 ∧
    Event.pageClose ∉
      (processUrl (fun u => u)
        { contentType := "text/html",
          doc := { contentType2 := "", download := Except.ok (),
                   extractPdf := Except.ok "", extractWord := Except.ok "" },
          filesOnDisk := fun _ => false, nav := NavResult.timeout,
          diskOk := true, timestamp := "ts0" }
        "https://slow.example" { urlMap := [], failedUrls := [] }).2 := by
  decide

/-- Claim C3 (amended): for a web-page URL whose capture does not complete
within the 5 s deadline, the worker records a `Processing timeout` failure
and the index is untouched; any other navigation or rendering error is
recorded with the underlying error's message; both outcomes are terminal for
the URL in this run and the loop moves on — but on these paths the page is
NOT closed (no session release: `page.close()` is skipped by the thrown
error; the page is closed only after a successful capture, and the browser
context as a whole only at end of run or shutdown). -/
theorem claim_C3_timeout_no_close (hashUrl : String → String) (env : StepEnv)
    (url : String) (st : LoopState)
    (hpdf : includes env.contentType "pdf" = false)
    (hword : includes env.contentType "word" = false)
    (hhtml : includes env.contentType "html" = true)
    (hfiles : checkFilesExist env.filesOnDisk
      [pathJoin screenshotsDir (hashUrl url ++ ".png"),
       pathJoin htmlDir (hashUrl url ++ ".html"),
       pathJoin textDir (hashUrl url ++ ".txt")] = false) :
    (env.nav = NavResult.timeout →
      (processUrl hashUrl env url st).1.failedUrls =
        st.failedUrls ++
          [{ url := url, error := "Processing timeout",
             timestamp := env.timestamp }] ∧
      (processUrl hashUrl env url st).1.urlMap = st.urlMap ∧
      Event.pageOpen ∈ (processUrl hashUrl env url st).2 ∧
      Event.pageClose ∉ (processUrl hashUrl env url st).2) ∧
    (∀ msg, env.nav = NavResult.err msg → msg ≠ "Timeout" →
      (processUrl hashUrl env url st).1.failedUrls =
        st.failedUrls ++
          [{ url := url, error := msg, timestamp := env.timestamp }] ∧
      (processUrl hashUrl env url st).1.urlMap = st.urlMap ∧
      Event.pageClose ∉ (processUrl hashUrl env url st).2) := by
  obtain ⟨ct, denv, fod, nav, dOk, ts⟩ := env
  have hp : includes ct "pdf" = false := hpdf
  have hw : includes ct "word" = false := hword
  have hh : includes ct "html" = true := hhtml
  have hf : checkFilesExist fod
      [pathJoin screenshotsDir (hashUrl url ++ ".png"),
       pathJoin htmlDir (hashUrl url ++ ".html"),
       pathJoin textDir (hashUrl url ++ ".txt")] = false := hfiles
  constructor
  · intro hnav
    have hnav2 : nav = NavResult.timeout := hnav
    subst hnav2
    simp only [processUrl, catchUrlError_eq, recordFailure, hp, hw, hh, hf]
    cases dOk <;> simp [updateIndexFiles, updateIndexFilesNoAwait]
  · intro msg hnav hmsg
    have hnav2 : nav = NavResult.err msg := hnav
    subst hnav2
    simp only [processUrl, catchUrlError_eq, recordFailure, hp, hw, hh, hf]
    cases dOk <;> simp [updateIndexFiles, updateIndexFilesNoAwait, hmsg]

theorem claim_C3_timeout_no_close_witness :
    ((processUrl (fun u => u)
        { contentType := "text/html",
          doc := { contentType2 := "", download := Except.ok (),
                   extractPdf := Except.ok "", extractWord := Except.ok "" },
          filesOnDisk := fun _ => false, nav := NavResult.timeout,
          diskOk := true, timestamp := "ts1" }
        "https://t.example" { urlMap := [], failedUrls := [] }).1.failedUrls =
      [] ++
        [{ url := "https://t.example", error := "Processing timeout",
           timestamp := "ts1" }] ∧
     (processUrl (fun u => u)
        { contentType := "text/html",
          doc := { contentType2 := "", download := Except.ok (),
                   extractPdf := Except.ok "", extractWord := Except.ok "" },
          filesOnDisk := fun _ => false, nav := NavResult.timeout,
          diskOk := true, timestamp := "ts1" }
        "https://t.example" { urlMap := [], failedUrls := [] }).1.urlMap = [] ∧
     Event.pageOpen ∈
       (processUrl (fun u => u)
        { contentType := "text/html",
          doc := { contentType2 := "", download := Except.ok (),
                   extractPdf := Except.ok "", extractWord := Except.ok "" },
          filesOnDisk := fun _ => false, nav := NavResult.timeout,
          diskOk := true, timestamp := "ts1" }
        "https://t.example" { urlMap := [], failedUrls := [] }).2 ∧
     Event.pageClose ∉
       (processUrl (fun u => u)
        { contentType := "text/html",
          doc := { contentType2 := "", download := Except.ok (),
                   extractPdf := Except.ok "", extractWord := Except.ok "" },
          filesOnDisk := fun _ => false, nav := NavResult.timeout,
          diskOk := true, timestamp := "ts1" }
        "https://t.example" { urlMap := [], failedUrls := [] }).2) :=
  (claim_C3_timeout_no_close (fun u => u)
    { contentType := "text/html",
      doc := { contentType2 := "", download := Except.ok (),
               extractPdf := Except.ok "", extractWord := Except.ok "" },
      filesOnDisk := fun _ => false, nav := NavResult.timeout,
      diskOk := true, timestamp := "ts1" }
    "https://t.example" { urlMap := [], failedUrls := [] }
    (by decide) (by decide) (by decide) (by decide)).1 rfl

/-- Claim C4: dispatch is decided by substring matching on the probed
content-type, in the code's match order — `pdf` first (document worker,
extension `.pdf`), else `word` (document worker, `.docx`), else `html` (page
worker), else an immediate `Unsupported content type` failure with no worker
invoked (the empty string from a failed probe falls in this last case) —
stated for a re-probe that returns the same content-type as the dispatch
probe and a succeeding download. -/
theorem claim_C4_dispatch (hashUrl : String → String) (env : StepEnv)
    (url : String) (st : LoopState)
    (hsame : env.doc.contentType2 = env.contentType)
    (hdl : env.doc.download = Except.ok ()) :
    (includes env.contentType "pdf" = true →
      Event.download url (pathJoin docDir (hashUrl url ++ ".pdf")) ∈
        (processUrl hashUrl env url st).2) ∧
    (includes env.contentType "pdf" = false →
      includes env.contentType "word" = true →
      Event.download url (pathJoin docDir (hashUrl url ++ ".docx")) ∈
        (processUrl hashUrl env url st).2) ∧
    (includes env.contentType "pdf" = false →
      includes env.contentType "word" = false →
      includes env.contentType "html" = true →
      (∀ u p, Event.download u p ∉ (processUrl hashUrl env url st).2) ∧
      (checkFilesExist env.filesOnDisk
          [pathJoin screenshotsDir (hashUrl url ++ ".png"),
           pathJoin htmlDir (hashUrl url ++ ".html"),
           pathJoin textDir (hashUrl url ++ ".txt")] = false →
        Event.pageOpen ∈ (processUrl hashUrl env url st).2) ∧
      (checkFilesExist env.filesOnDisk
          [pathJoin screenshotsDir (hashUrl url ++ ".png"),
           pathJoin htmlDir (hashUrl url ++ ".html"),
           pathJoin textDir (hashUrl url ++ ".txt")] = true →
        lookupUrl (processUrl hashUrl env url st).1.urlMap url =
          some (ArtifactSet.page (hashUrl url ++ ".png")
            (hashUrl url ++ ".html") (hashUrl url ++ ".txt")))) ∧
    (includes env.contentType "pdf" = false →
      includes env.contentType "word" = false →
      includes env.contentType "html" = false →
      (processUrl hashUrl env url st).1.failedUrls =
        st.failedUrls ++
          [{ url := url,
             error := "Unsupported content type: " ++ env.contentType,
             timestamp := env.timestamp }] ∧
      (processUrl hashUrl env url st).1.urlMap = st.urlMap ∧
      Event.pageOpen ∉ (processUrl hashUrl env url st).2 ∧
      (∀ u p, Event.download u p ∉ (processUrl hashUrl env url st).2)) := by
  obtain ⟨ct, ⟨ct2, dl, exP, exW⟩, fod, nav, dOk, ts⟩ := env
  have hs : ct2 = ct := hsame
  subst hs
  have hd : dl = Except.ok () := hdl
  subst hd
  refine ⟨?_, ?_, ?_, ?_⟩
  · intro hp
    cases exP <;>
      simp [processUrl, processDocument, hp, catchUrlError_eq, recordFailure]
  · intro hp hw
    cases exW <;>
      simp [processUrl, processDocument, hp, hw, catchUrlError_eq,
        recordFailure]
  · intro hp hw hh
    refine ⟨?_, ?_, ?_⟩
    · intro u p
      cases nav <;>
        cases hcf : checkFilesExist fod
          [pathJoin screenshotsDir (hashUrl url ++ ".png"),
           pathJoin htmlDir (hashUrl url ++ ".html"),
           pathJoin textDir (hashUrl url ++ ".txt")] <;>
        simp [processUrl, hp, hw, hh, hcf, catchUrlError_eq, recordFailure] <;>
        cases dOk <;> simp [updateIndexFiles, updateIndexFilesNoAwait]
    · intro hcf
      cases nav <;>
        simp [processUrl, hp, hw, hh, hcf, catchUrlError_eq, recordFailure]
    · intro hcf
      simp [processUrl, hp, hw, hh, hcf, lookupUrl_setKey]
  · intro hp hw hh
    simp [processUrl, hp, hw, hh, recordFailure, catchUrlError_eq]
    cases dOk <;> simp [updateIndexFiles, updateIndexFilesNoAwait]

theorem claim_C4_dispatch_witness :
    Event.download "https://d.example" (pathJoin docDir ("h1" ++ ".pdf")) ∈
      (processUrl (fun _ => "h1")
        { contentType := "application/pdf",
          doc := { contentType2 := "application/pdf", download := Except.ok (),
                   extractPdf := Except.ok "text", extractWord := Except.ok "" },
          filesOnDisk := fun _ => false, nav := NavResult.ok, diskOk := true,
          timestamp := "ts2" }
        "https://d.example" { urlMap := [], failedUrls := [] }).2 :=
  (claim_C4_dispatch (fun _ => "h1")
    { contentType := "application/pdf",
      doc := { contentType2 := "application/pdf", download := Except.ok (),
               extractPdf := Except.ok "text", extractWord := Except.ok "" },
      filesOnDisk := fun _ => false, nav := NavResult.ok, diskOk := true,
      timestamp := "ts2" }
    "https://d.example" { urlMap := [], failedUrls := [] } rfl rfl).1
    (by decide)

set_option maxHeartbeats 1600000 in
/-- Claim C6: every per-URL outcome leaves the prior ledger intact and
appends at most one new record, and any appended record carries the URL and
the step's timestamp (append-only, in order, no dedup); and the loop is a
plain fold over its work list — no per-URL outcome terminates the run. -/
theorem claim_C6_per_url_errors (hashUrl : String → String) (env : StepEnv)
    (url : String) (st : LoopState)
    (step : String → LoopState → LoopState × List Event) (urls : List String)
    (st0 : LoopState) :
    (∃ extra,
      (processUrl hashUrl env url st).1.failedUrls = st.failedUrls ++ extra ∧
      extra.length ≤ 1 ∧
      ∀ r ∈ extra, r.url = url ∧ r.timestamp = env.timestamp) ∧
    (loopRun step (urls.map (fun u => (u, false))) false st0).1 =
      urls.foldl (fun s u => (step u s).1) st0 := by
  constructor
  · obtain ⟨ct, ⟨ct2, dl, exP, exW⟩, fod, nav, dOk, ts⟩ := env
    cases nav <;> cases dl <;> cases exP <;> cases exW <;>
      simp only [processUrl, processDocument, catchUrlError_eq, recordFailure,
        updateIndexFiles, updateIndexFilesNoAwait] <;>
      split_ifs <;>
      first
        | exact ⟨[], (List.append_nil st.failedUrls).symm, by simp, by simp⟩
        | exact ⟨_, rfl, by simp, by simp⟩
  · induction urls generalizing st0 with
    | nil => rfl
    | cons u rest ih => simp [loopRun, ih]

theorem claim_C6_per_url_errors_witness :
    (loopRun (fun _ s => (s, []))
        ((["https://a.example", "https://b.example"]).map (fun u => (u, false)))
        false { urlMap := [], failedUrls := [] }).1 =
      (["https://a.example", "https://b.example"]).foldl
        (fun s u => ((fun _ s2 => (s2, ([] : List Event))) u s).1)
        { urlMap := [], failedUrls := [] } :=
  (claim_C6_per_url_errors (fun u => u)
    { contentType := "",
      doc := { contentType2 := "", download := Except.ok (),
               extractPdf := Except.ok "", extractWord := Except.ok "" },
      filesOnDisk := fun _ => false, nav := NavResult.ok, diskOk := true,
      timestamp := "ts3" }
    "https://a.example" { urlMap := [], failedUrls := [] }
    (fun _ s => (s, []))
    ["https://a.example", "https://b.example"]
    { urlMap := [], failedUrls := [] }).2

/-- Claim C7: when all three fingerprinted page-artifact files already exist
on disk, the page branch short-circuits to success — the index gains the
three fingerprinted filenames, a flush of that updated state is emitted
(when the write succeeds), the ledger is untouched, and no page is opened
and no navigation is invoked. -/
theorem claim_C7_skip_on_exists (hashUrl : String → String) (env : StepEnv)
    (url : String) (st : LoopState)
    (hpdf : includes env.contentType "pdf" = false)
    (hword : includes env.contentType "word" = false)
    (hhtml : includes env.contentType "html" = true)
    (hfiles : checkFilesExist env.filesOnDisk
      [pathJoin screenshotsDir (hashUrl url ++ ".png"),
       pathJoin htmlDir (hashUrl url ++ ".html"),
       pathJoin textDir (hashUrl url ++ ".txt")] = true) :
    (processUrl hashUrl env url st).1.urlMap =
      setKey st.urlMap url
        (ArtifactSet.page (hashUrl url ++ ".png") (hashUrl url ++ ".html")
          (hashUrl url ++ ".txt")) ∧
    (processUrl hashUrl env url st).1.failedUrls = st.failedUrls ∧
    (env.diskOk = true →
      Event.flushWrite
          (setKey st.urlMap url
            (ArtifactSet.page (hashUrl url ++ ".png") (hashUrl url ++ ".html")
              (hashUrl url ++ ".txt"))) st.failedUrls ∈
        (processUrl hashUrl env url st).2) ∧
    Event.pageOpen ∉ (processUrl hashUrl env url st).2 ∧
    (∀ u, Event.navigate u ∉ (processUrl hashUrl env url st).2) := by
  obtain ⟨ct, denv, fod, nav, dOk, ts⟩ := env
  have hp : includes ct "pdf" = false := hpdf
  have hw : includes ct "word" = false := hword
  have hh : includes ct "html" = true := hhtml
  have hf : checkFilesExist fod
      [pathJoin screenshotsDir (hashUrl url ++ ".png"),
       pathJoin htmlDir (hashUrl url ++ ".html"),
       pathJoin textDir (hashUrl url ++ ".txt")] = true := hfiles
  simp only [processUrl, hp, hw, hh, hf]
  cases dOk <;> simp [updateIndexFiles]

theorem claim_C7_skip_on_exists_witness :
    (processUrl (fun _ => "h2")
        { contentType := "text/html",
          doc := { contentType2 := "text/html", download := Except.ok (),
                   extractPdf := Except.ok "", extractWord := Except.ok "" },
          filesOnDisk := fun _ => true, nav := NavResult.ok, diskOk := true,
          timestamp := "ts4" }
        "https://p.example" { urlMap := [], failedUrls := [] }).1.urlMap =
      setKey [] "https://p.example"
        (ArtifactSet.page ("h2" ++ ".png") ("h2" ++ ".html") ("h2" ++ ".txt")) :=
  (claim_C7_skip_on_exists (fun _ => "h2")
    { contentType := "text/html",
      doc := { contentType2 := "text/html", download := Except.ok (),
               extractPdf := Except.ok "", extractWord := Except.ok "" },
      filesOnDisk := fun _ => true, nav := NavResult.ok, diskOk := true,
      timestamp := "ts4" }
    "https://p.example" { urlMap := [], failedUrls := [] }
    (by decide) (by decide) (by decide) (by decide)).1

/-- Claim C10: when the document worker's re-probe matches neither `pdf` nor
`word` (for example the empty string after a failed probe), the body is
still downloaded to a `.bin` file and only then the unsupported-type error
is thrown: the URL gains no index entry, a failure record with that message
is appended, the downloaded `.bin` file's write remains in the trace, and no
text file is written. -/
theorem claim_C10_reprobe_bin (hashUrl : String → String) (env : StepEnv)
    (url : String) (st : LoopState)
    (hroute : includes env.contentType "pdf" = true ∨
      includes env.contentType "word" = true)
    (h2pdf : includes env.doc.contentType2 "pdf" = false)
    (h2word : includes env.doc.contentType2 "word" = false)
    (hdl : env.doc.download = Except.ok ()) :
    (processDocument url (hashUrl url) docDir textDir env.doc).1 =
      Except.error ("Unsupported document type: " ++ env.doc.contentType2) ∧
    Event.download url (pathJoin docDir (hashUrl url ++ ".bin")) ∈
      (processDocument url (hashUrl url) docDir textDir env.doc).2 ∧
    (∀ p, Event.writeFile p ∉
      (processDocument url (hashUrl url) docDir textDir env.doc).2) ∧
    (processUrl hashUrl env url st).1.urlMap = st.urlMap ∧
    (processUrl hashUrl env url st).1.failedUrls =
      st.failedUrls ++
        [{ url := url,
           error := "Unsupported document type: " ++ env.doc.contentType2,
           timestamp := env.timestamp }] ∧
    Event.download url (pathJoin docDir (hashUrl url ++ ".bin")) ∈
      (processUrl hashUrl env url st).2 := by
  obtain ⟨ct, ⟨ct2, dl, exP, exW⟩, fod, nav, dOk, ts⟩ := env
  have h2p : includes ct2 "pdf" = false := h2pdf
  have h2w : includes ct2 "word" = false := h2word
  have hd : dl = Except.ok () := hdl
  subst hd
  have hdisp : (includes ct "pdf" || includes ct "word") = true := by
    rcases hroute with h | h <;> simp [includes] at h ⊢ <;> simp [h]
  refine ⟨?_, ?_, ?_, ?_, ?_, ?_⟩ <;>
    simp [processUrl, processDocument, hdisp, h2p, h2w, catchUrlError_eq,
      recordFailure, unsupported_msg_ne_timeout, updateIndexFiles, updateIndexFilesNoAwait]

theorem claim_C10_reprobe_bin_witness :
    (processDocument "https://x.example" "h3" docDir textDir
        { contentType2 := "", download := Except.ok (),
          extractPdf := Except.ok "", extractWord := Except.ok "" }).1 =
      Except.error ("Unsupported document type: " ++ "") :=
  (claim_C10_reprobe_bin (fun _ => "h3")
    { contentType := "application/pdf",
      doc := { contentType2 := "", download := Except.ok (),
               extractPdf := Except.ok "", extractWord := Except.ok "" },
      filesOnDisk := fun _ => false, nav := NavResult.ok, diskOk := true,
      timestamp := "ts5" }
    "https://x.example" { urlMap := [], failedUrls := [] }
    (Or.inl (by decide)) (by decide) (by decide) rfl).1

end Crawler
